import Mathlib

/-!
Verification development for the media-card module
(src/.config/ignis/modules/control_center/media.py).

The module builds one PlayerCard widget per active media player. We embed
the data model and the operations shallowly: the external collaborators
(color extraction, template rendering, the stylesheet registry) are modelled
as explicit parameters or explicit state, and the side-effecting refresh
routine load_colors is embedded as a function producing a trace of the
external calls it performs together with the updated registry state.
-/

namespace Media

/-- Python exceptions that cross the boundary of this component. -/
inductive PyError where
  | stylePathNotFoundError : PyError
  | typeError (msg : String) : PyError
  | keyError (msg : String) : PyError
deriving DecidableEq, Repr

/-- Modelled from the spec: the host library fixed cache directory
(ignis.CACHE_DIR); its exact value is external to this file and is
modelled as an arbitrary fixed string. -/
def ignis_CACHE_DIR : String := "~/.cache/ignis"

/-- MEDIA_TEMPLATE (media.py line 13): the fixed stylesheet template path.
The expanduser home-directory expansion is modelled by keeping the tilde. -/
def MEDIA_TEMPLATE : String := "~/.config/ignis/scss/media.scss"

/-- MEDIA_SCSS_CACHE_DIR (media.py line 14). -/
def MEDIA_SCSS_CACHE_DIR : String := ignis_CACHE_DIR ++ "/media"

/-- MEDIA_ART_FALLBACK (media.py line 15): the fixed fallback art image. -/
def MEDIA_ART_FALLBACK : String := "~/.config/ignis/misc/media-art-fallback.png"

/-- The attributes of an external MprisPlayer source that this component
reads. track_id and art_url may be absent (Python None); an empty string
art_url is also treated as absent by the code. -/
structure MprisPlayer where
  desktop_entry : String
  track_id : Option String
  art_url : Option String
  position : Int
  length : Int
deriving DecidableEq, Repr

/-- PLAYER_ICONS (media.py lines 25 to 30): a dict keyed by
"spotify", "firefox", "chrome" and None. Lookup of any other key would be
a Python KeyError, modelled by returning none. -/
def PLAYER_ICONS : Option String → Option String
  | some "spotify" => some "󰓇"
  | some "firefox" => some "󰈹"
  | some "chrome" => some "󰊯"
  | none => some ""
  | _ => none

/-- Python dict subscript access on PLAYER_ICONS: raises KeyError when the
key is missing. -/
def playerIconsGet (k : Option String) : Except PyError String :=
  match PLAYER_ICONS k with
  | some v => Except.ok v
  | none => Except.error (PyError.keyError "key not in PLAYER_ICONS")

/-- Prefix test on character lists. -/
def listPrefixOf : List Char → List Char → Bool
  | [], _ => true
  | _ :: _, [] => false
  | a :: as, b :: bs => a == b && listPrefixOf as bs

/-- Occurrence test on character lists: the needle occurs at some offset. -/
def listContainsSub : List Char → List Char → Bool
  | hay, needle =>
    listPrefixOf needle hay ||
      match hay with
      | [] => false
      | _ :: t => listContainsSub t needle

/-- Substring membership, modelling the Python expression needle in hay
on strings. -/
def strContainsSub (hay needle : String) : Bool :=
  listContainsSub hay.data needle.data

/-- The Python membership test needle in hay where hay may be None:
on None it raises a TypeError, as the in operator requires an iterable. -/
def pyIn (needle : String) (hay : Option String) : Except PyError Bool :=
  match hay with
  | none => Except.error (PyError.typeError "argument of type NoneType is not iterable")
  | some s => Except.ok (strContainsSub s needle)

/-- Player.get_player_icon (media.py lines 159 to 167): branches on the
desktop entry, then on substring tests against the track id. The two
substring tests are joined by a short-circuit or. -/
def get_player_icon (p : MprisPlayer) : Except PyError String :=
  if p.desktop_entry = "firefox" then
    playerIconsGet (some "firefox")
  else if p.desktop_entry = "spotify" then
    playerIconsGet (some "spotify")
  else
    match pyIn "chromium" p.track_id with
    | Except.error e => Except.error e
    | Except.ok c1 =>
      if c1 then playerIconsGet (some "chrome")
      else
        match pyIn "chrome" p.track_id with
        | Except.error e => Except.error e
        | Except.ok c2 =>
          if c2 then playerIconsGet (some "chrome")
          else playerIconsGet none

/-- The Python format specifier 02d applied to an integer: zero-pad to
width two. For a negative integer the sign counts toward the width, which
matches the if branch never padding negatives. -/
def format02d (n : Int) : String :=
  if 0 ≤ n ∧ n < 10 then "0" ++ toString n else toString n

/-- format_seconds (media.py lines 19 to 22): on a truthy (nonzero) input,
divmod by 60 and format; on input 0 the function body falls through and
Python returns None. Integer division and modulus by the positive constant
60 agree between Python and the euclidean operations used here. -/
def format_seconds (seconds : Int) : Option String :=
  if seconds ≠ 0 then
    let minutes := seconds / 60
    let secs := seconds % 60
    some (toString minutes ++ ":" ++ format02d secs)
  else
    none

/-- The scrubber visibility binding (media.py lines 127 to 129):
lambda value: value != -1. -/
def scrubber_visible (position : Int) : Bool := position != -1

/-- The stylesheet output path computed in Player.__init__ (media.py line
36) from the desktop entry read at construction time. -/
def colors_path (desktop_entry : String) : String :=
  MEDIA_SCSS_CACHE_DIR ++ "/" ++ desktop_entry ++ ".scss"

/-- The process-wide stylesheet registry of the application, keyed by path
identity: the list of currently applied stylesheet paths. -/
abbrev CssRegistry := List String

/-- app.apply_css: registers the path. -/
def apply_css (css : CssRegistry) (path : String) : CssRegistry := css ++ [path]

/-- app.remove_css: unregisters the path; raises StylePathNotFoundError
when the path was never applied. -/
def remove_css (css : CssRegistry) (path : String) : Except PyError CssRegistry :=
  if path ∈ css then Except.ok (css.erase path)
  else Except.error PyError.stylePathNotFoundError

/-- A palette: a mapping of color roles to values, modelled as a Python
dict in insertion order. -/
abbrev Palette := List (String × String)

/-- Python dict item assignment d[k] = v: overwrite the value in place if
the key is present, append the pair otherwise. -/
def dictSet : Palette → String → String → Palette
  | [], k, v => [(k, v)]
  | (k0, v0) :: t, k, v =>
    if k0 = k then (k, v) :: t else (k0, v0) :: dictSet t k v

/-- Python dict lookup. -/
def dictFind : Palette → String → Option String
  | [], _ => none
  | (k0, v0) :: t, k => if k0 = k then some v0 else dictFind t k

/-- The external color and templating utility (scripts.material.material),
an excluded collaborator: both calls may fail, and this component does not
handle their failures. -/
structure Material where
  get_colors_from_img : String → Bool → Except PyError Palette
  render_template : Palette → String → String → Except PyError Unit

/-- One observable external call made during a theming refresh. -/
inductive Event where
  | remove_css_call (path : String)
  | get_colors_call (img : String) (dark : Bool)
  | render_call (colors : Palette) (input_file : String) (output_file : String)
  | apply_css_call (path : String)
deriving DecidableEq, Repr

/-- The stylesheet path an event acts on, if any. -/
def eventPath : Event → Option String
  | Event.remove_css_call p => some p
  | Event.get_colors_call _ _ => none
  | Event.render_call _ _ p => some p
  | Event.apply_css_call p => some p

/-- Art-location resolution at the top of Player.load_colors (media.py
lines 176 to 179): a missing or empty art_url is falsy in Python and the
fallback image is used. -/
def resolve_art_url : Option String → String
  | none => MEDIA_ART_FALLBACK
  | some s => if s = "" then MEDIA_ART_FALLBACK else s

/-- Outcome of one run of Player.load_colors: the trace of external calls
performed, the stylesheet registry afterwards, and the uncaught exception
if one escaped. -/
structure LoadResult where
  trace : List Event
  css : CssRegistry
  error : Option PyError
deriving Repr

/-- Player.load_colors (media.py lines 176 to 193): resolve the art
location, try to remove the previously applied stylesheet path swallowing
StylePathNotFoundError (the only error remove_css raises), extract a
palette, write the resolved art location and the desktop entry into it,
render the template to the fixed output path, apply that path. Failures of
the two external material calls are not caught and escape. -/
def load_colors (m : Material) (p : MprisPlayer) (path : String)
    (css : CssRegistry) : LoadResult :=
  let art_url := resolve_art_url p.art_url
  let css1 := match remove_css css path with
    | Except.ok c => c
    | Except.error _ => css
  let t1 := [Event.remove_css_call path, Event.get_colors_call art_url true]
  match m.get_colors_from_img art_url true with
  | Except.error e => { trace := t1, css := css1, error := some e }
  | Except.ok colors0 =>
    let colors := dictSet (dictSet colors0 "art_url" art_url)
      "desktop_entry" p.desktop_entry
    let t2 := t1 ++ [Event.render_call colors MEDIA_TEMPLATE path]
    match m.render_template colors MEDIA_TEMPLATE path with
    | Except.error e => { trace := t2, css := css1, error := some e }
    | Except.ok _ =>
      { trace := t2 ++ [Event.apply_css_call path],
        css := apply_css css1 path,
        error := none }

/-- The state of one Player card that the claims observe: the stylesheet
path stored at construction, the icon label computed at construction, the
revealer state, the reveal-transition duration in milliseconds, and
whether the node is still in the layout tree. -/
structure Card where
  card_colors_path : String
  icon : String
  reveal_child : Bool
  transition_duration : Nat
  parented : Bool
deriving DecidableEq, Repr

/-- Outcome of constructing a Player card (Player.__init__, media.py lines
34 to 157): the card unless an exception escaped construction, plus the
trace and registry state of the initial theming refresh. -/
structure InitResult where
  card : Option Card
  trace : List Event
  css : CssRegistry
  error : Option PyError
deriving Repr

/-- Player.__init__ (media.py lines 34 to 157): store the stylesheet path
computed once from the desktop entry, run the first theming refresh, then
build the widget tree, during which the icon glyph is computed once. The
revealer starts hidden; the transition duration is a toolkit property of
the revealer. -/
def player_init (m : Material) (p : MprisPlayer) (transition_duration : Nat)
    (css : CssRegistry) : InitResult :=
  let path := colors_path p.desktop_entry
  let r := load_colors m p path css
  { card :=
      match r.error, get_player_icon p with
      | some _, _ => none
      | none, Except.error _ => none
      | none, Except.ok icon =>
        some { card_colors_path := path, icon := icon, reveal_child := false,
               transition_duration := transition_duration, parented := false },
    trace := r.trace,
    css := r.css,
    error :=
      match r.error, get_player_icon p with
      | some e, _ => some e
      | none, Except.error e => some e
      | none, Except.ok _ => none }

/-- The notify::art-url handler installed in Player.__init__ (media.py
line 38): it runs load_colors on the stored path against the current
player attributes. -/
def on_art_url_changed (m : Material) (c : Card) (p : MprisPlayer)
    (css : CssRegistry) : LoadResult :=
  load_colors m p c.card_colors_path css

/-- Player.destroy (media.py lines 169 to 171): hide the revealer
immediately, then schedule a one-shot Utils.Timeout for unparenting after
transition_duration milliseconds. The returned list holds the pending
timer delays. -/
def destroy (c : Card) : Card × List Nat :=
  ({ c with reveal_child := false }, [c.transition_duration])

/-- One millisecond of the cooperative event loop: every pending one-shot
timer whose remaining delay is at most this step fires its unparent
callback and is discarded; the rest advance. Nothing else touches the
timer list, so nothing cancels a pending removal. -/
def tick : Card × List Nat → Card × List Nat
  | (c, ts) =>
    let fired := ts.any fun t => decide (t ≤ 1)
    let c1 := if fired then { c with parented := false } else c
    (c1, (ts.filter fun t => decide (1 < t)).map fun t => t - 1)

/-- The add_player callback of the media container (media.py lines
199 to 202): append the freshly built card to the layout and reveal it. -/
def add_player (c : Card) : Card :=
  { c with parented := true, reveal_child := true }

/-- Concrete palette used to instantiate the external extractor. -/
def okPalette : Palette := [("primary", "112233")]

/-- A concrete always-succeeding external utility. -/
def okMaterial : Material :=
  { get_colors_from_img := fun _ _ => Except.ok okPalette,
    render_template := fun _ _ _ => Except.ok () }

/-- A concrete player source with no art location. -/
def spotifyPlayer : MprisPlayer :=
  { desktop_entry := "spotify", track_id := some "spotify:track:1",
    art_url := none, position := 0, length := 180 }

/-- A concrete player source with a present art location. -/
def vlcPlayer : MprisPlayer :=
  { desktop_entry := "vlc", track_id := some "/org/mpris/track/7",
    art_url := some "file:///tmp/cover.png", position := 42, length := 180 }

/-- A concrete card, as it stands after add_player revealed it. -/
def demoCard : Card :=
  { card_colors_path := colors_path "spotify", icon := "󰓇",
    reveal_child := true, transition_duration := 250, parented := true }

/-- The card that player_init builds for spotifyPlayer under okMaterial. -/
def initCardSpotify : Card :=
  { card_colors_path := colors_path "spotify", icon := "󰓇",
    reveal_child := false, transition_duration := 250, parented := false }

/-! Helper lemmas about the dict model. -/

theorem dictFind_dictSet_self (d : Palette) (k v : String) :
    dictFind (dictSet d k v) k = some v := by
  induction d with
  | nil => simp [dictSet, dictFind]
  | cons hd t ih =>
    obtain ⟨k0, v0⟩ := hd
    by_cases h : k0 = k
    · simp [dictSet, dictFind, h]
    · simp [dictSet, dictFind, h, ih]

theorem dictFind_dictSet_ne (d : Palette) (k k0 v : String) (h : k ≠ k0) :
    dictFind (dictSet d k0 v) k = dictFind d k := by
  induction d with
  | nil => simp [dictSet, dictFind, Ne.symm h]
  | cons hd t ih =>
    obtain ⟨k1, v1⟩ := hd
    by_cases h1 : k1 = k0
    · subst h1
      simp [dictSet, dictFind, Ne.symm h]
    · by_cases h2 : k1 = k
      · simp [dictSet, dictFind, h1, h2, h]
      · simp [dictSet, dictFind, h1, h2, ih]

/-! Helper lemma for path injectivity. -/

theorem string_append_inj_middle (pre suf a b : String)
    (h : pre ++ a ++ suf = pre ++ b ++ suf) : a = b := by
  have hd := congrArg String.data h
  simp only [String.data_append] at hd
  exact String.ext (List.append_cancel_left (List.append_cancel_right hd))

/-! Helper lemmas about the timer semantics. -/

theorem tick_nil (c : Card) (k : Nat) :
    tick^[k] (c, ([] : List Nat)) = (c, []) := by
  induction k with
  | zero => rfl
  | succ k ih =>
    rw [Function.iterate_succ_apply, show tick (c, []) = (c, []) from rfl, ih]

theorem tick_step_gt (c : Card) (d : Nat) (h : 1 < d) :
    tick (c, [d]) = (c, [d - 1]) := by
  have h1 : ¬ d ≤ 1 := by omega
  simp [tick, h, h1]

theorem tick_step_one (c : Card) :
    tick (c, [1]) = ({ c with parented := false }, []) := by
  simp [tick]

theorem tick_lt (k d : Nat) (c : Card) (h : k < d) :
    tick^[k] (c, [d]) = (c, [d - k]) := by
  induction k generalizing d with
  | zero => simp
  | succ k ih =>
    have h2 : 1 < d := by omega
    rw [Function.iterate_succ_apply, tick_step_gt c d h2, ih (d - 1) (by omega)]
    have h3 : d - 1 - k = d - (k + 1) := by omega
    rw [h3]

theorem tick_ge (k d : Nat) (c : Card) (h1 : 1 ≤ d) (h2 : d ≤ k) :
    (tick^[k] (c, [d])).1.parented = false := by
  induction k generalizing d c with
  | zero => omega
  | succ k ih =>
    by_cases hd : d = 1
    · subst hd
      rw [Function.iterate_succ_apply, tick_step_one, tick_nil]
    · have h3 : 1 < d := by omega
      rw [Function.iterate_succ_apply, tick_step_gt c d h3]
      exact ih (d - 1) c (by omega) (by omega)

/-! Helper lemma about card construction. -/

theorem player_init_card (m : Material) (p : MprisPlayer) (dur : Nat)
    (css : CssRegistry) (c : Card)
    (h : (player_init m p dur css).card = some c) :
    get_player_icon p = Except.ok c.icon ∧
    c.card_colors_path = colors_path p.desktop_entry := by
  simp only [player_init] at h
  split at h
  · exact absurd h (by simp)
  · exact absurd h (by simp)
  · rename_i icon heq1 heq2
    rw [heq2]
    cases h
    exact ⟨rfl, rfl⟩

/-! Helper lemma: every path-bearing event of one refresh targets the
path the refresh was given. -/

theorem load_colors_eventPath (m : Material) (p : MprisPlayer)
    (path : String) (css : CssRegistry) :
    ∀ e ∈ (load_colors m p path css).trace,
      eventPath e = none ∨ eventPath e = some path := by
  intro e he
  cases hg : m.get_colors_from_img (resolve_art_url p.art_url) true with
  | error e2 =>
    simp [load_colors, hg] at he
    rcases he with h | h <;> subst h <;> simp [eventPath]
  | ok pal =>
    cases hr : m.render_template
        (dictSet (dictSet pal "art_url" (resolve_art_url p.art_url))
          "desktop_entry" p.desktop_entry) MEDIA_TEMPLATE path with
    | error e2 =>
      simp [load_colors, hg, hr] at he
      rcases he with h | h | h <;> subst h <;> simp [eventPath]
    | ok u =>
      cases u
      simp [load_colors, hg, hr] at he
      rcases he with h | h | h | h <;> subst h <;> simp [eventPath]

/-! Helper lemma for the two-digit property of the seconds field. -/

theorem format02d_length_two (r : Int) (h0 : 0 ≤ r) (h1 : r < 60) :
    (format02d r).length = 2 := by
  have key : ∀ n : Nat, n < 60 → (format02d (n : Int)).length = 2 := by decide
  have hr : r = ((r.toNat : Nat) : Int) := (Int.toNat_of_nonneg h0).symm
  rw [hr]
  exact key r.toNat (by omega)

/-! Shared helper: the trace of a refresh whose external calls succeed. -/

theorem load_colors_trace_ok (m : Material) (p : MprisPlayer)
    (path : String) (css : CssRegistry) (pal : Palette) (art : String)
    (ha : resolve_art_url p.art_url = art)
    (hg : m.get_colors_from_img art true = Except.ok pal)
    (hr : m.render_template
      (dictSet (dictSet pal "art_url" art) "desktop_entry" p.desktop_entry)
      MEDIA_TEMPLATE path = Except.ok ()) :
    (load_colors m p path css).trace =
      [Event.remove_css_call path,
       Event.get_colors_call art true,
       Event.render_call
         (dictSet (dictSet pal "art_url" art)
           "desktop_entry" p.desktop_entry) MEDIA_TEMPLATE path,
       Event.apply_css_call path] := by
  subst ha
  simp [load_colors, hg, hr]

/-- C1: every theming refresh, whether the one run at construction or one
run by the art-location change handler, performs exactly these external
calls in this order: attempt removal of the previously applied stylesheet
path, palette extraction from the resolved art image, rendering of the
template with the palette augmented by the resolved art location and the
desktop entry to the fixed output path, and application of that path; in
particular the removal precedes the render and the apply. -/
theorem c1_theming_refresh_order (m : Material) (p : MprisPlayer)
    (path : String) (css : CssRegistry) (pal : Palette) (c : Card)
    (dur : Nat)
    (hg : m.get_colors_from_img (resolve_art_url p.art_url) true =
      Except.ok pal)
    (hr : m.render_template
      (dictSet (dictSet pal "art_url" (resolve_art_url p.art_url))
        "desktop_entry" p.desktop_entry) MEDIA_TEMPLATE path =
      Except.ok ()) :
    (load_colors m p path css).trace =
      [Event.remove_css_call path,
       Event.get_colors_call (resolve_art_url p.art_url) true,
       Event.render_call
         (dictSet (dictSet pal "art_url" (resolve_art_url p.art_url))
           "desktop_entry" p.desktop_entry) MEDIA_TEMPLATE path,
       Event.apply_css_call path] ∧
    (player_init m p dur css).trace =
      (load_colors m p (colors_path p.desktop_entry) css).trace ∧
    on_art_url_changed m c p css =
      load_colors m p c.card_colors_path css := by
  refine ⟨?_, rfl, rfl⟩
  exact load_colors_trace_ok m p path css pal (resolve_art_url p.art_url)
    rfl hg hr

/-- Witness for C1 at a concrete material, player, path and registry. -/
theorem c1_witness :
    (load_colors okMaterial spotifyPlayer (colors_path "spotify") []).trace =
      [Event.remove_css_call (colors_path "spotify"),
       Event.get_colors_call (resolve_art_url spotifyPlayer.art_url) true,
       Event.render_call
         (dictSet (dictSet okPalette "art_url"
             (resolve_art_url spotifyPlayer.art_url))
           "desktop_entry" spotifyPlayer.desktop_entry) MEDIA_TEMPLATE
         (colors_path "spotify"),
       Event.apply_css_call (colors_path "spotify")] ∧
    (player_init okMaterial spotifyPlayer 250 []).trace =
      (load_colors okMaterial spotifyPlayer
        (colors_path spotifyPlayer.desktop_entry) []).trace ∧
    on_art_url_changed okMaterial demoCard spotifyPlayer [] =
      load_colors okMaterial spotifyPlayer demoCard.card_colors_path [] :=
  c1_theming_refresh_order okMaterial spotifyPlayer (colors_path "spotify")
    [] okPalette demoCard 250 rfl rfl

/-- C2: the icon glyph is a pure function of the desktop entry and the
track identifier: spotify and firefox map to their fixed glyphs, any other
desktop entry maps to the chrome glyph when the track identifier contains
the substring chrome or chromium, and to the empty glyph otherwise; the
value stored on the card is this function evaluated once at construction. -/
theorem c2_icon_pure_function (p : MprisPlayer) (tid : String)
    (ht : p.track_id = some tid) :
    (p.desktop_entry = "spotify" → get_player_icon p = Except.ok "󰓇") ∧
    (p.desktop_entry = "firefox" → get_player_icon p = Except.ok "󰈹") ∧
    (p.desktop_entry ≠ "spotify" → p.desktop_entry ≠ "firefox" →
      ((strContainsSub tid "chrome" = true ∨
          strContainsSub tid "chromium" = true) →
        get_player_icon p = Except.ok "󰊯") ∧
      (strContainsSub tid "chrome" = false →
        strContainsSub tid "chromium" = false →
        get_player_icon p = Except.ok "")) ∧
    (∀ (m : Material) (dur : Nat) (css : CssRegistry) (c : Card),
      (player_init m p dur css).card = some c →
      get_player_icon p = Except.ok c.icon) := by
  refine ⟨?_, ?_, ?_, ?_⟩
  · intro h
    simp [get_player_icon, h, playerIconsGet, PLAYER_ICONS]
  · intro h
    simp [get_player_icon, h, playerIconsGet, PLAYER_ICONS]
  · intro h1 h2
    constructor
    · intro h3
      cases hb : strContainsSub tid "chromium" with
      | true =>
        simp [get_player_icon, h1, h2, pyIn, ht, hb, playerIconsGet,
          PLAYER_ICONS]
      | false =>
        have hc : strContainsSub tid "chrome" = true := by
          rcases h3 with h3 | h3
          · exact h3
          · rw [h3] at hb; exact absurd hb (by simp)
        simp [get_player_icon, h1, h2, pyIn, ht, hb, hc, playerIconsGet,
          PLAYER_ICONS]
    · intro hc hb
      simp [get_player_icon, h1, h2, pyIn, ht, hb, hc, playerIconsGet,
        PLAYER_ICONS]
  · intro m dur css c hcard
    exact (player_init_card m p dur css c hcard).1

/-- Witness for C2: the mapping at concrete players of each shape. -/
theorem c2_witness :
    get_player_icon spotifyPlayer = Except.ok "󰓇" ∧
    get_player_icon vlcPlayer = Except.ok "" :=
  ⟨(c2_icon_pure_function spotifyPlayer "spotify:track:1" rfl).1 rfl,
   ((c2_icon_pure_function vlcPlayer "/org/mpris/track/7" rfl).2.2.1
     (by decide) (by decide)).2 (by decide) (by decide)⟩

/-- C3: only the path-not-found condition of stylesheet removal is
handled: when the path was never applied the refresh still completes and
registers the path, while a failure of either external material call is
not caught and escapes as that same error. -/
theorem c3_remove_error_swallowed (m : Material) (p : MprisPlayer)
    (path : String) (css : CssRegistry) (pal : Palette) (e : PyError) :
    (path ∉ css →
      m.get_colors_from_img (resolve_art_url p.art_url) true =
        Except.ok pal →
      m.render_template
        (dictSet (dictSet pal "art_url" (resolve_art_url p.art_url))
          "desktop_entry" p.desktop_entry) MEDIA_TEMPLATE path =
        Except.ok () →
      (load_colors m p path css).error = none ∧
      (load_colors m p path css).css = apply_css css path) ∧
    (m.get_colors_from_img (resolve_art_url p.art_url) true =
        Except.error e →
      (load_colors m p path css).error = some e) ∧
    (m.get_colors_from_img (resolve_art_url p.art_url) true =
        Except.ok pal →
      m.render_template
        (dictSet (dictSet pal "art_url" (resolve_art_url p.art_url))
          "desktop_entry" p.desktop_entry) MEDIA_TEMPLATE path =
        Except.error e →
      (load_colors m p path css).error = some e) := by
  refine ⟨?_, ?_, ?_⟩
  · intro h hg hr
    constructor
    · simp [load_colors, hg, hr]
    · simp [load_colors, remove_css, h, hg, hr]
  · intro hg
    simp [load_colors, hg]
  · intro hg hr
    simp [load_colors, hg, hr]

/-- Witness for C3: removal on an empty registry is swallowed and the
refresh completes. -/
theorem c3_witness :
    (load_colors okMaterial vlcPlayer (colors_path "vlc") []).error = none ∧
    (load_colors okMaterial vlcPlayer (colors_path "vlc") []).css =
      apply_css [] (colors_path "vlc") :=
  (c3_remove_error_swallowed okMaterial vlcPlayer (colors_path "vlc") []
      okPalette PyError.stylePathNotFoundError).1
    (by simp) rfl rfl

/-- C4: when the art location of the source is missing or empty, the
refresh resolves it to the fixed fallback image, extracts the palette from
that fallback, and echoes the fallback path into the art_url entry of the
rendered palette; a present nonempty art location is used instead. -/
theorem c4_fallback_art (m : Material) (p : MprisPlayer) (path : String)
    (css : CssRegistry) (pal : Palette)
    (hg : m.get_colors_from_img (resolve_art_url p.art_url) true =
      Except.ok pal)
    (hr : m.render_template
      (dictSet (dictSet pal "art_url" (resolve_art_url p.art_url))
        "desktop_entry" p.desktop_entry) MEDIA_TEMPLATE path =
      Except.ok ()) :
    ((p.art_url = none ∨ p.art_url = some "") →
      resolve_art_url p.art_url = MEDIA_ART_FALLBACK ∧
      (load_colors m p path css).trace =
        [Event.remove_css_call path,
         Event.get_colors_call MEDIA_ART_FALLBACK true,
         Event.render_call
           (dictSet (dictSet pal "art_url" MEDIA_ART_FALLBACK)
             "desktop_entry" p.desktop_entry) MEDIA_TEMPLATE path,
         Event.apply_css_call path] ∧
      dictFind
        (dictSet (dictSet pal "art_url" MEDIA_ART_FALLBACK)
          "desktop_entry" p.desktop_entry) "art_url" =
        some MEDIA_ART_FALLBACK) ∧
    (∀ s : String, p.art_url = some s → s ≠ "" →
      resolve_art_url p.art_url = s ∧
      (load_colors m p path css).trace =
        [Event.remove_css_call path,
         Event.get_colors_call s true,
         Event.render_call
           (dictSet (dictSet pal "art_url" s)
             "desktop_entry" p.desktop_entry) MEDIA_TEMPLATE path,
         Event.apply_css_call path] ∧
      dictFind
        (dictSet (dictSet pal "art_url" s)
          "desktop_entry" p.desktop_entry) "art_url" = some s) := by
  constructor
  · intro h
    have ha : resolve_art_url p.art_url = MEDIA_ART_FALLBACK := by
      rcases h with h | h <;> simp [resolve_art_url, h]
    rw [ha] at hg hr
    refine ⟨ha, ?_, ?_⟩
    · exact load_colors_trace_ok m p path css pal MEDIA_ART_FALLBACK ha hg hr
    · rw [dictFind_dictSet_ne _ _ _ _ (by decide)]
      exact dictFind_dictSet_self pal "art_url" MEDIA_ART_FALLBACK
  · intro s hs hne
    have ha : resolve_art_url p.art_url = s := by
      simp [resolve_art_url, hs, hne]
    rw [ha] at hg hr
    refine ⟨ha, ?_, ?_⟩
    · exact load_colors_trace_ok m p path css pal s ha hg hr
    · rw [dictFind_dictSet_ne _ _ _ _ (by decide)]
      exact dictFind_dictSet_self pal "art_url" s

/-- Witness for C4: the concrete source with no art location resolves to
the fallback. -/
theorem c4_witness :
    resolve_art_url spotifyPlayer.art_url = MEDIA_ART_FALLBACK ∧
    (load_colors okMaterial spotifyPlayer (colors_path "spotify") []).trace =
      [Event.remove_css_call (colors_path "spotify"),
       Event.get_colors_call MEDIA_ART_FALLBACK true,
       Event.render_call
         (dictSet (dictSet okPalette "art_url" MEDIA_ART_FALLBACK)
           "desktop_entry" spotifyPlayer.desktop_entry) MEDIA_TEMPLATE
         (colors_path "spotify"),
       Event.apply_css_call (colors_path "spotify")] ∧
    dictFind
      (dictSet (dictSet okPalette "art_url" MEDIA_ART_FALLBACK)
        "desktop_entry" spotifyPlayer.desktop_entry) "art_url" =
      some MEDIA_ART_FALLBACK :=
  (c4_fallback_art okMaterial spotifyPlayer (colors_path "spotify") []
      okPalette rfl rfl).1 (Or.inl rfl)

/-- C5: the scrubber visibility binding is false exactly at the sentinel
position value minus one, and true at every other value. -/
theorem c5_scrubber_visibility (p : Int) :
    (scrubber_visible p = false ↔ p = -1) ∧
    (p ≠ -1 → scrubber_visible p = true) := by
  constructor
  · simp [scrubber_visible]
  · intro h
    simp [scrubber_visible, h]

/-- Witness for C5 at the sentinel and at an ordinary position. -/
theorem c5_witness :
    scrubber_visible (-1) = false ∧ scrubber_visible 42 = true :=
  ⟨(c5_scrubber_visibility (-1)).1.mpr rfl,
   (c5_scrubber_visibility 42).2 (by decide)⟩

/-- C6: on the closed notification the card is hidden immediately in the
same callback, one single unparent timer is scheduled whose delay equals
the reveal-transition duration, the node stays in the layout tree strictly
before that delay has elapsed, and once it has elapsed the node is
unconditionally removed, nothing having cancelled the timer. -/
theorem c6_destroy_deferred_unparent (c : Card) (k : Nat)
    (hp : c.parented = true) (hd : 1 ≤ c.transition_duration) :
    (destroy c).1.reveal_child = false ∧
    (destroy c).1.parented = true ∧
    (destroy c).2 = [c.transition_duration] ∧
    (k < c.transition_duration →
      (tick^[k] (destroy c)).1.parented = true) ∧
    (c.transition_duration ≤ k →
      (tick^[k] (destroy c)).1.parented = false) := by
  refine ⟨rfl, hp, rfl, ?_, ?_⟩
  · intro hk
    have heq : destroy c =
        ({ c with reveal_child := false }, [c.transition_duration]) := rfl
    rw [heq, tick_lt k c.transition_duration _ hk]
    exact hp
  · intro hk
    have heq : destroy c =
        ({ c with reveal_child := false }, [c.transition_duration]) := rfl
    rw [heq]
    exact tick_ge k c.transition_duration _ hd hk

/-- Witness for C6 on a concrete revealed card, one millisecond past the
transition duration. -/
theorem c6_witness :
    (destroy demoCard).1.reveal_child = false ∧
    (destroy demoCard).1.parented = true ∧
    (destroy demoCard).2 = [demoCard.transition_duration] ∧
    (251 < demoCard.transition_duration →
      (tick^[251] (destroy demoCard)).1.parented = true) ∧
    (demoCard.transition_duration ≤ 251 →
      (tick^[251] (destroy demoCard)).1.parented = false) :=
  c6_destroy_deferred_unparent demoCard 251 rfl (by decide)

/-- C7: the map from a desktop entry to its stylesheet output path is
injective, so two distinct desktop entries never collide on a path. -/
theorem c7_colors_path_injective (d1 d2 : String) (h : d1 ≠ d2) :
    colors_path d1 ≠ colors_path d2 := by
  intro heq
  exact h (string_append_inj_middle (MEDIA_SCSS_CACHE_DIR ++ "/") ".scss"
    d1 d2 heq)

/-- Witness for C7 on two concrete desktop entries. -/
theorem c7_witness : colors_path "spotify" ≠ colors_path "firefox" :=
  c7_colors_path_injective "spotify" "firefox" (by decide)

/-- C8: on every nonzero integer input format_seconds returns the string
built from the quotient by sixty, a colon, and the remainder zero-padded
to exactly two digits, using the euclidean division that Python divmod
performs; on input zero it falls through and returns None. -/
theorem c8_format_seconds (s : Int) (h : s ≠ 0) :
    format_seconds s =
      some (toString (s / 60) ++ ":" ++ format02d (s % 60)) ∧
    60 * (s / 60) + s % 60 = s ∧
    0 ≤ s % 60 ∧ s % 60 < 60 ∧
    (format02d (s % 60)).length = 2 ∧
    format_seconds 0 = none := by
  have h0 : (0 : Int) ≤ s % 60 := Int.emod_nonneg s (by norm_num)
  have h1 : s % 60 < 60 := Int.emod_lt_of_pos s (by norm_num)
  refine ⟨?_, Int.ediv_add_emod s 60, h0, h1, ?_, ?_⟩
  · simp [format_seconds, h]
  · exact format02d_length_two (s % 60) h0 h1
  · simp [format_seconds]

/-- Witness for C8 at a concrete duration. -/
theorem c8_witness :
    format_seconds 125 =
      some (toString ((125 : Int) / 60) ++ ":" ++ format02d ((125 : Int) % 60)) :=
  (c8_format_seconds 125 (by decide)).1

/-- C9: for a player whose desktop entry is neither firefox nor spotify
and whose track identifier is absent, the substring membership test raises
a TypeError instead of returning a glyph. -/
theorem c9_icon_raises_on_none_track (p : MprisPlayer)
    (h1 : p.desktop_entry ≠ "firefox") (h2 : p.desktop_entry ≠ "spotify")
    (h3 : p.track_id = none) :
    get_player_icon p =
      Except.error
        (PyError.typeError "argument of type NoneType is not iterable") := by
  simp [get_player_icon, h1, h2, pyIn, h3]

/-- Witness for C9 on a concrete player with an absent track id. -/
theorem c9_witness :
    get_player_icon
      { desktop_entry := "vlc", track_id := none, art_url := none,
        position := 0, length := 0 } =
      Except.error
        (PyError.typeError "argument of type NoneType is not iterable") :=
  c9_icon_raises_on_none_track
    { desktop_entry := "vlc", track_id := none, art_url := none,
      position := 0, length := 0 } (by decide) (by decide) rfl

/-- C10: the stylesheet path of a card is fixed at construction from the
desktop entry read at that moment: the art-change handler always refreshes
against that stored path, and every path-bearing external call of such a
refresh targets it, even when run against player attributes whose desktop
entry has since changed. -/
theorem c10_colors_path_stable (m m2 : Material) (p0 p1 : MprisPlayer)
    (dur : Nat) (css css1 : CssRegistry) (c : Card)
    (h : (player_init m p0 dur css).card = some c) :
    c.card_colors_path = colors_path p0.desktop_entry ∧
    on_art_url_changed m2 c p1 css1 =
      load_colors m2 p1 (colors_path p0.desktop_entry) css1 ∧
    ∀ e ∈ (on_art_url_changed m2 c p1 css1).trace,
      eventPath e = none ∨ eventPath e = some (colors_path p0.desktop_entry) := by
  have hc := (player_init_card m p0 dur css c h).2
  have he : on_art_url_changed m2 c p1 css1 =
      load_colors m2 p1 (colors_path p0.desktop_entry) css1 := by
    rw [show on_art_url_changed m2 c p1 css1 =
      load_colors m2 p1 c.card_colors_path css1 from rfl, hc]
  refine ⟨hc, he, ?_⟩
  rw [he]
  exact load_colors_eventPath m2 p1 (colors_path p0.desktop_entry) css1

/-- Witness for C10: a concrete card built for a spotify source, then
refreshed against attributes whose desktop entry changed to vlc. -/
theorem c10_witness :
    initCardSpotify.card_colors_path =
      colors_path spotifyPlayer.desktop_entry ∧
    on_art_url_changed okMaterial initCardSpotify vlcPlayer [] =
      load_colors okMaterial vlcPlayer
        (colors_path spotifyPlayer.desktop_entry) [] ∧
    ∀ e ∈ (on_art_url_changed okMaterial initCardSpotify vlcPlayer []).trace,
      eventPath e = none ∨
      eventPath e = some (colors_path spotifyPlayer.desktop_entry) :=
  c10_colors_path_stable okMaterial okMaterial spotifyPlayer vlcPlayer 250
    [] [] initCardSpotify (by decide)

end Media
